import Mathlib

/-!
Verification development for the Data Explorer application
(`src/Data_Explorer.py`): a Streamlit script that filters, sorts and
paginates a columnar dataset and reconciles state with an embedded
widget.  The definitions below are a shallow embedding of the relevant
parts of the source:

* a JSON value model together with the canonical serialization used by
  the script's echo test (`json.dumps(..., sort_keys=True)`);
* the state reconciler of the main script (lines 1905-1948);
* the pagination computation (lines 1978-1996);
* `apply_filters_and_sort` (lines 256-360) over a dataframe model;
* `updateSubcategoryOptions` from the embedded widget JavaScript
  (lines 1589-1662).
-/

/-- Model of a Python/JSON value as exchanged between the script and the
`widget` component.  Numbers are modelled as integers (the claims under
study do not depend on float-specific behaviour). -/
inductive Json where
  | null
  | bool (b : Bool)
  | num (n : Int)
  | str (s : String)
  | arr (xs : List Json)
  | obj (kvs : List (String × Json))

/-- Lexicographic comparison of character lists by code point, the order
Python uses when `json.dumps(..., sort_keys=True)` sorts object keys. -/
def charsLe : List Char → List Char → Bool
  | [], _ => true
  | _ :: _, [] => false
  | a :: as, b :: bs =>
    if a.toNat < b.toNat then true
    else if b.toNat < a.toNat then false
    else charsLe as bs

/-- Code-point lexicographic order on strings. -/
def strLe (a b : String) : Bool := charsLe a.data b.data

/-- Insert one key-value pair into a key-sorted association list. -/
def insortKey (p : String × Json) : List (String × Json) → List (String × Json)
  | [] => [p]
  | q :: qs => if strLe p.1 q.1 then p :: q :: qs else q :: insortKey p qs

/-- Sort an association list by key (insertion sort), modelling the
stable key ordering `sort_keys=True` imposes at each object level. -/
def sortKeys : List (String × Json) → List (String × Json)
  | [] => []
  | p :: ps => insortKey p (sortKeys ps)

mutual
/-- Recursively sort every object's keys.  `dumps (canon j)` then equals
Python's `json.dumps(j, sort_keys=True)` up to value rendering. -/
def canon : Json → Json
  | .null => .null
  | .bool b => .bool b
  | .num n => .num n
  | .str s => .str s
  | .arr xs => .arr (canonList xs)
  | .obj kvs => .obj (sortKeys (canonKVs kvs))
/-- Canonicalize every element of a JSON array. -/
def canonList : List Json → List Json
  | [] => []
  | x :: xs => canon x :: canonList xs
/-- Canonicalize every value of a JSON object. -/
def canonKVs : List (String × Json) → List (String × Json)
  | [] => []
  | (k, v) :: kvs => (k, canon v) :: canonKVs kvs
end

mutual
/-- Serialize a JSON value in Python's `json.dumps` default style
(separators between items and after keys). -/
def dumps : Json → String
  | .null => "null"
  | .bool b => if b then "true" else "false"
  | .num n => toString n
  | .str s => "\"" ++ s ++ "\""
  | .arr xs => "[" ++ dumpsList xs ++ "]"
  | .obj kvs => "\x7b" ++ dumpsKVs kvs ++ "\x7d"
/-- Serialize the elements of a JSON array. -/
def dumpsList : List Json → String
  | [] => ""
  | [x] => dumps x
  | x :: xs => dumps x ++ ", " ++ dumpsList xs
/-- Serialize the key-value pairs of a JSON object. -/
def dumpsKVs : List (String × Json) → String
  | [] => ""
  | [(k, v)] => "\"" ++ k ++ "\": " ++ dumps v
  | (k, v) :: kvs => "\"" ++ k ++ "\": " ++ dumps v ++ ", " ++ dumpsKVs kvs
end

/-- Canonical serialization: stable key ordering at every level, then a
deterministic rendering.  This is the script's
`json.dumps(state, sort_keys=True)`. -/
def dumpsCanon (j : Json) : String := dumps (canon j)

/-- Test for a JSON object, modelling Python's `isinstance(x, dict)`. -/
def isObj : Json → Bool
  | .obj _ => true
  | _ => false

/-- Dictionary lookup (`d.get(k)` / `d[k]`); objects have unique keys in
Python, so first-match lookup is faithful. -/
def objLookup : Json → String → Option Json
  | .obj kvs, k => kvs.lookup k
  | _, _ => none

/-- Key membership test (`k in d`). -/
def objHasKey (j : Json) (k : String) : Bool := (objLookup j k).isSome

/-- Dataset-wide numeric bounds, loaded from the filter metadata store
(`min_max_values`), with which the default ranges are built. -/
structure Bounds where
  minPledged : Int
  maxPledged : Int
  minGoal : Int
  maxGoal : Int
  minRaised : Int
  maxRaised : Int

/-- Hardcoded fallback bounds from the source's `min_max_values`
default (lines 121-125). -/
def defaultBounds : Bounds :=
  { minPledged := 0, maxPledged := 1000, minGoal := 0, maxGoal := 10000,
    minRaised := 0, maxRaised := 500 }

/-- Default `ranges` sub-dictionary of `DEFAULT_FILTERS` (lines 188-192). -/
def defaultRangesJson (b : Bounds) : Json :=
  .obj [("pledged", .obj [("min", .num b.minPledged), ("max", .num b.maxPledged)]),
        ("goal", .obj [("min", .num b.minGoal), ("max", .num b.maxGoal)]),
        ("raised", .obj [("min", .num b.minRaised), ("max", .num b.maxRaised)])]

/-- The source's `DEFAULT_FILTERS` dictionary (lines 181-193). -/
def DEFAULT_FILTERS (b : Bounds) : Json :=
  .obj [("search", .str ""),
        ("categories", .arr [.str "All Categories"]),
        ("subcategories", .arr [.str "All Subcategories"]),
        ("countries", .arr [.str "All Countries"]),
        ("states", .arr [.str "All States"]),
        ("date", .str "All Time"),
        ("ranges", defaultRangesJson b)]

/-- Keys of `DEFAULT_FILTERS`, used by the structural validation
(`all(k in ... for k in DEFAULT_FILTERS.keys())`, line 1940). -/
def DEFAULT_FILTERS_KEYS : List String :=
  ["search", "categories", "subcategories", "countries", "states", "date", "ranges"]

/-- The source's `DEFAULT_COMPONENT_STATE` (lines 194-198). -/
def DEFAULT_COMPONENT_STATE (b : Bounds) : Json :=
  .obj [("page", .num 1),
        ("filters", DEFAULT_FILTERS b),
        ("sort_order", .str "popularity")]

/-- The committed session state the backend queries against:
`st.session_state.filters`, `.sort_order`, `.current_page`.  The fields
are JSON values because the adoption step (lines 1941-1943) stores the
message's values directly. -/
structure SessionState where
  filters : Json
  sort_order : Json
  current_page : Json

/-- Initial session state (lines 202-207): defaults at session start. -/
def initialSession (b : Bounds) : SessionState :=
  { filters := DEFAULT_FILTERS b,
    sort_order := .str "popularity",
    current_page := .num 1 }

/-- Initial value of `st.session_state.state_sent_to_component`
(lines 213-216): the source initializes it with
`DEFAULT_COMPONENT_STATE` "so the first comparison works", i.e. the
first cycle compares against the defaults rather than treating every
message as new. -/
def initial_state_sent_to_component (b : Bounds) : Json :=
  DEFAULT_COMPONENT_STATE b

/-- The state comparison of lines 1910-1930: a message counts as new
exactly when it is a dict and its canonical serialization differs from
that of the last state sent; a missing or non-dict message counts as
not new; a non-dict `state_sent_last_run` makes any dict message new. -/
def component_sent_new_state (received : Option Json) (sentLast : Json) : Bool :=
  match received with
  | none => false
  | some r =>
    if isObj r then
      if isObj sentLast then decide (dumpsCanon r ≠ dumpsCanon sentLast)
      else true
    else false

/-- Structural validation of lines 1936-1940: the message must contain
`page` and `sort_order` keys and a `filters` dict containing every key
of `DEFAULT_FILTERS`.  No per-field type or shape validation happens. -/
def structurallyValid (r : Json) : Bool :=
  objHasKey r "page" && objHasKey r "sort_order" &&
    (match objLookup r "filters" with
     | some f => isObj f && DEFAULT_FILTERS_KEYS.all (fun k => objHasKey f k)
     | none => false)

/-- Conditional session-state update of lines 1933-1946: on a
structurally valid message the three fields are adopted verbatim (the
`json.loads(json.dumps(...))` deep copy is the identity on values);
otherwise the previous state stands.  The boolean records whether the
message was adopted. -/
def updateSessionState (r : Json) (sess : SessionState) : SessionState × Bool :=
  if structurallyValid r then
    ({ current_page := (objLookup r "page").getD .null,
       sort_order := (objLookup r "sort_order").getD .null,
       filters := (objLookup r "filters").getD .null }, true)
  else (sess, false)

/-- One reconciliation step of the main script (lines 1905-1948):
compare the received component value against the last-sent state and
conditionally update the committed session state.  The boolean is true
exactly when the inbound message mutated the state used for the
subsequent recomputation. -/
def reconcile (received : Option Json) (sentLast : Json) (sess : SessionState) :
    SessionState × Bool :=
  if component_sent_new_state received sentLast then
    match received with
    | some r => updateSessionState r sess
    | none => (sess, false)
  else (sess, false)

/-- The source's `PAGE_SIZE` constant (line 12). -/
def PAGE_SIZE : Nat := 10

/-- Total page count (line 1978):
`math.ceil(total_rows / PAGE_SIZE) if PAGE_SIZE > 0 else 1`. -/
def totalPagesOf (totalRows pageSize : Nat) : Nat :=
  if 0 < pageSize then (totalRows + pageSize - 1) / pageSize else 1

/-- Page clamp (line 1979):
`max(1, min(current_page, total_pages if total_pages > 0 else 1))`. -/
def clampCurrentPage (requested : Int) (totalPages : Nat) : Int :=
  max 1 (min requested (if 0 < totalPages then (totalPages : Int) else 1))

/-- Pagination of lines 1978-1996 over a materialized plan: compute the
page count from the row count, clamp the requested page, and fetch the
slice `(offset, pageSize)` only when
`total_rows > 0 and offset < total_rows and PAGE_SIZE > 0`; otherwise
the page stays empty.  Returns the committed (clamped) page number and
the fetched page. -/
def paginate {α : Type} (rows : List α) (pageSize : Nat) (requested : Int) :
    Int × List α :=
  let totalRows : Nat := rows.length
  let totalPages := totalPagesOf totalRows pageSize
  let current := clampCurrentPage requested totalPages
  let offset : Int := (current - 1) * (pageSize : Int)
  if 0 < totalRows ∧ offset < (totalRows : Int) ∧ 0 < pageSize then
    (current, (rows.drop offset.toNat).take pageSize)
  else
    (current, [])

/-- Model of a polars cell value.  Columns are homogeneous in polars;
the embedding types cells dynamically and treats a type-mismatched cell
the way polars treats null (comparison yields no match). -/
inductive PValue where
  | vstr (s : String)
  | vnum (n : Int)
  | vdt (t : Int)
deriving DecidableEq, Repr

/-- One dataset row: an association of column names to cells, `none`
being a null cell. -/
abbrev Row := List (String × Option PValue)

/-- Read one cell; a column missing from the row behaves as null. -/
def getCell (r : Row) (c : String) : Option PValue :=
  match r.lookup c with
  | some v => v
  | none => none

/-- Model of a (materialized) LazyFrame: the schema's column names and
the ordered rows. -/
structure Frame where
  cols : List String
  rows : List Row
deriving DecidableEq, Repr

/-- One inclusive numeric range `{min, max}` of the `ranges` filter. -/
structure NumericRange where
  lo : Int
  hi : Int
deriving DecidableEq, Repr

/-- The `ranges` dictionary: the source reads it with
`filters.get('ranges', {})` and tests each of `pledged`, `goal`,
`raised` for presence individually, hence one option per key. -/
structure RangeFilters where
  pledged : Option NumericRange
  goal : Option NumericRange
  raised : Option NumericRange
deriving DecidableEq, Repr

/-- A well-formed filter specification as consumed by
`apply_filters_and_sort` (the shape the widget emits). -/
structure FilterSpec where
  search : String
  categories : List String
  subcategories : List String
  countries : List String
  states : List String
  date : String
  ranges : RangeFilters
deriving DecidableEq, Repr

/-- The fixed list of text columns searched (line 265). -/
def SEARCH_COLS : List String := ["Project Name", "Creator", "Category", "Subcategory"]

/-- Cast a cell to Utf8 (`.cast(pl.Utf8)`): strings unchanged, numbers
rendered decimally. -/
def castUtf8 : PValue → String
  | .vstr s => s
  | .vnum n => toString n
  | .vdt t => toString t

/-- Token of the regular-expression fragment the embedding models:
literal characters and the `.` wildcard. -/
inductive RTok where
  | lit (c : Char)
  | anyChar
deriving DecidableEq, Repr

/-- Parse a pattern string into tokens: `.` is the any-character
wildcard, a backslash escapes the next character, and every other
character is a literal.  This models the fragment of the regex language
that the theorems below exercise; theorems over general search strings
carry a hypothesis excluding the remaining metacharacters. -/
def parseRegex : List Char → List RTok
  | [] => []
  | c :: rest =>
    if c = '\\' then
      match rest with
      | [] => [.lit '\\']
      | d :: rest2 => .lit d :: parseRegex rest2
    else (if c = '.' then .anyChar else .lit c) :: parseRegex rest

/-- Match of a single token against a character. -/
def tokMatches : RTok → Char → Bool
  | .lit c, d => c = d
  | .anyChar, _ => true

/-- Match a token list against a prefix of the text. -/
def matchHere : List RTok → List Char → Bool
  | [], _ => true
  | _ :: _, [] => false
  | t :: ts, c :: cs => tokMatches t c && matchHere ts cs

/-- Unanchored regex search: does the pattern match at some position? -/
def regexFind (p : List RTok) : List Char → Bool
  | [] => matchHere p []
  | c :: rest => matchHere p (c :: rest) || regexFind p rest

/-- ASCII lowercasing of a string through its character list; models
the case folding used by the case-insensitive operations (the inputs of
interest are ASCII). -/
def lowerStr (s : String) : String := String.mk (s.data.map Char.toLower)

/-- Model of `pl.col(c).cast(pl.Utf8).str.contains("(?i)" + term)`
(line 273): the search term is interpreted as a regular expression with
the case-insensitive flag; case-insensitivity is modelled by lowercasing
pattern and text. -/
def strContainsCI (term s : String) : Bool :=
  regexFind (parseRegex (lowerStr term).data) (lowerStr s).data

/-- Literal prefix match, for the specification-side substring notion. -/
def substrHere : List Char → List Char → Bool
  | [], _ => true
  | _ :: _, [] => false
  | a :: as, b :: bs => a = b && substrHere as bs

/-- Literal substring search at any position. -/
def substrFind (p : List Char) : List Char → Bool
  | [] => substrHere p []
  | c :: rest => substrHere p (c :: rest) || substrFind p rest

/-- Specification-side notion for the text search: case-insensitive
literal substring containment. -/
def substrContainsCI (term s : String) : Bool :=
  substrFind (lowerStr term).data (lowerStr s).data

/-- Text-search step (lines 261-279): skipped for an empty term or when
none of the search columns exists; otherwise a row is kept when at
least one existing search column is non-null and matches (a null cell
contributes null to the OR, and a row whose OR is null or false is
dropped by `filter`). -/
def searchStep (search : String) (cols : List String) (rows : List Row) : List Row :=
  if search = "" then rows
  else
    let valid := SEARCH_COLS.filter (fun c => decide (c ∈ cols))
    if valid = [] then rows
    else
      rows.filter (fun r => valid.any (fun c =>
        match getCell r c with
        | some v => strContainsCI search (castUtf8 v)
        | none => false))

/-- Categorical membership step (lines 282-288), shared by the
Category, Subcategory and Country filters: active only when the column
exists and the selection differs from the sentinel singleton; keeps the
rows whose cell is a string belonging to the selection (null cells are
dropped by `is_in`'s null propagation). -/
def isInStep (colName sentinel : String) (sel : List String)
    (cols : List String) (rows : List Row) : List Row :=
  if colName ∈ cols ∧ sel ≠ [sentinel] then
    rows.filter (fun r =>
      match getCell r colName with
      | some (.vstr s) => decide (s ∈ sel)
      | _ => false)
  else rows

/-- State filter step (lines 291-293): case-insensitive membership via
lowercasing both the cast cell and the selection. -/
def stateStep (states : List String) (cols : List String) (rows : List Row) : List Row :=
  if "State" ∈ cols ∧ states ≠ ["All States"] then
    rows.filter (fun r =>
      match getCell r "State" with
      | some v => decide (lowerStr (castUtf8 v) ∈ states.map lowerStr)
      | none => false)
  else rows

/-- Inclusive range predicate on a cell: polars keeps a row when
`value >= min AND value <= max`; a null (or non-numeric) cell yields
null and the row is dropped. -/
def cellInRange (rg : NumericRange) (cell : Option PValue) : Bool :=
  match cell with
  | some (.vnum v) => decide (rg.lo ≤ v ∧ v ≤ rg.hi)
  | _ => false

/-- One numeric range filter (lines 297-308): applied whenever the
column exists and the key is present in `ranges` — the source never
compares the range against the dataset bounds, so a default range is
still applied. -/
def rangeStep (colName : String) (org : Option NumericRange)
    (cols : List String) (rows : List Row) : List Row :=
  match org with
  | some rg =>
    if colName ∈ cols then rows.filter (fun r => cellInRange rg (getCell r colName))
    else rows
  | none => rows

/-- The three numeric range filters in source order. -/
def rangesStep (rf : RangeFilters) (cols : List String) (rows : List Row) : List Row :=
  rangeStep "Raw Raised" rf.raised cols
    (rangeStep "Raw Goal" rf.goal cols
      (rangeStep "Raw Pledged" rf.pledged cols rows))

/-- Fixed day deltas of the date filter (lines 316-325); an
unrecognized label leaves `compare_date` unset and the filter is
skipped (`if compare_date:`). -/
def dateDeltaDays : String → Option Int
  | "Last Month" => some 30
  | "Last 6 Months" => some 182
  | "Last Year" => some 365
  | "Last 5 Years" => some (5 * 365)
  | "Last 10 Years" => some (10 * 365)
  | _ => none

/-- Non-strict cast of a cell to a timestamp
(`.cast(pl.Datetime, strict=False)`): datetimes and integers cast,
strings that fail to parse become null.  String parsing is not modelled
(the claims only rely on unparseable values becoming null and being
excluded). -/
def castDatetime : PValue → Option Int
  | .vdt t => some t
  | .vnum n => some n
  | .vstr _ => none

/-- Date filter step (lines 311-331): when the label is not
`All Time`, the column exists and the label resolves to a delta, keep
the rows whose cast date is at least `now` minus the delta; null casts
are dropped.  Time is measured in days. -/
def dateStep (now : Int) (date : String) (cols : List String) (rows : List Row) : List Row :=
  if date ≠ "All Time" ∧ "Raw Date" ∈ cols then
    match dateDeltaDays date with
    | some d =>
      rows.filter (fun r =>
        match getCell r "Raw Date" with
        | some v =>
          match castDatetime v with
          | some t => decide (now - d ≤ t)
          | none => false
        | none => false)
    | none => rows
  else rows

/-- Sort resolution (lines 334-352): default `Popularity Score`
descending, overridden only by the five recognized labels. -/
def sortSpecOf (sort_order : String) : String × Bool :=
  if sort_order = "newest" then ("Raw Date", true)
  else if sort_order = "oldest" then ("Raw Date", false)
  else if sort_order = "mostfunded" then ("Raw Pledged", true)
  else if sort_order = "mostbacked" then ("Backer Count", true)
  else if sort_order = "enddate" then ("Raw Deadline", true)
  else ("Popularity Score", true)

/-- Rank used to make the cell order total across constructors;
polars columns are homogeneous so only the same-constructor cases are
exercised. -/
def pvRank : PValue → Nat
  | .vstr _ => 0
  | .vnum _ => 1
  | .vdt _ => 2

/-- Ascending comparison of two non-null cells. -/
def pvLe (a b : PValue) : Bool :=
  match a, b with
  | .vstr x, .vstr y => strLe x y
  | .vnum x, .vnum y => decide (x ≤ y)
  | .vdt x, .vdt y => decide (x ≤ y)
  | _, _ => decide (pvRank a ≤ pvRank b)

/-- Order on optional cells for `sort(..., descending=d,
nulls_last=True)`: null cells sort after every non-null cell regardless
of direction. -/
def cellBefore (desc : Bool) (a b : Option PValue) : Bool :=
  match a, b with
  | none, none => true
  | none, some _ => false
  | some _, none => true
  | some x, some y => if desc then pvLe y x else pvLe x y

/-- Row comparison by one sort column. -/
def rowBefore (col : String) (desc : Bool) (r1 r2 : Row) : Bool :=
  cellBefore desc (getCell r1 col) (getCell r2 col)

/-- Insertion into a sorted row list. -/
def insertSorted (le : Row → Row → Bool) (r : Row) : List Row → List Row
  | [] => [r]
  | x :: xs => if le r x then r :: x :: xs else x :: insertSorted le r xs

/-- Deterministic (stable) sort of the row list, modelling the engine's
sort with the comparator above. -/
def sortRows (le : Row → Row → Bool) : List Row → List Row
  | [] => []
  | x :: xs => insertSorted le x (sortRows le xs)

/-- Sort step (lines 354-357): sort when the resolved column exists,
otherwise leave the order unchanged (non-fatal diagnostic). -/
def sortStep (sort_order : String) (cols : List String) (rows : List Row) : List Row :=
  if (sortSpecOf sort_order).1 ∈ cols then
    sortRows (rowBefore (sortSpecOf sort_order).1 (sortSpecOf sort_order).2) rows
  else rows

/-- The source's `apply_filters_and_sort` (lines 256-360): text search,
categorical filters, state filter, numeric ranges, date filter and sort,
composed in source order.  `now` is the value `datetime.datetime.now()`
read inside the date filter, made explicit. -/
def apply_filters_and_sort (now : Int) (f : Frame) (filters : FilterSpec)
    (sort_order : String) : Frame :=
  let r1 := searchStep filters.search f.cols f.rows
  let r2 := isInStep "Category" "All Categories" filters.categories f.cols r1
  let r3 := isInStep "Subcategory" "All Subcategories" filters.subcategories f.cols r2
  let r4 := isInStep "Country" "All Countries" filters.countries f.cols r3
  let r5 := stateStep filters.states f.cols r4
  let r6 := rangesStep filters.ranges f.cols r5
  let r7 := dateStep now filters.date f.cols r6
  { cols := f.cols, rows := sortStep sort_order f.cols r7 }

/-- Specification-side plan for claim C4, following the spec's words:
the unfiltered source sorted by popularity descending with nulls last. -/
def specUnfilteredByPopularity (f : Frame) : Frame :=
  { cols := f.cols, rows := sortRows (rowBefore "Popularity Score" true) f.rows }

/-- Per-row pass condition of one range filter, as a predicate: when the
range key is present and the column exists the cell must lie in the
range; otherwise the row passes vacuously. -/
def passOneRange (colName : String) (org : Option NumericRange)
    (cols : List String) (r : Row) : Bool :=
  match org with
  | some rg => if colName ∈ cols then cellInRange rg (getCell r colName) else true
  | none => true

/-- Per-row pass condition of all three range filters. -/
def rangesPass (rf : RangeFilters) (cols : List String) (r : Row) : Bool :=
  passOneRange "Raw Pledged" rf.pledged cols r &&
    passOneRange "Raw Goal" rf.goal cols r &&
    passOneRange "Raw Raised" rf.raised cols r

/-- Subcategory list of one category in the category-subcategory map
(`subcategoryMap[cat] || []`). -/
def lookupSubs (m : List (String × List String)) (cat : String) : List String :=
  match m.lookup cat with
  | some l => l
  | none => []

/-- Available subcategories computed by the widget's
`updateSubcategoryOptions` (lines 1596-1612): with `All Categories`
selected (or nothing selected) the pre-computed `All Categories` list;
otherwise the `All Subcategories` sentinel plus the union of the
selected categories' lists, the sentinel filtered out of the individual
lists.  The set is modelled as a list whose membership matters; the
display sort of the options does not affect membership and is omitted. -/
def availableSubcategories (m : List (String × List String))
    (selCats : List String) : List String :=
  if "All Categories" ∈ selCats ∨ selCats = [] then lookupSubs m "All Categories"
  else "All Subcategories" ::
    selCats.flatMap (fun cat => (lookupSubs m cat).filter (fun s => s ≠ "All Subcategories"))

/-- Subcategory selection reset logic of `updateSubcategoryOptions`
(lines 1622-1643): if any currently selected subcategory other than the
sentinel is no longer available, or the selection is empty, or
`All Categories` is selected, the whole selection is cleared and reset
to the sentinel singleton; otherwise it is kept unchanged. -/
def updateSubcategoryOptions (m : List (String × List String))
    (selCats selSubs : List String) : List String :=
  let avail := availableSubcategories m selCats
  let resetSelection := selSubs.any (fun s => decide (s ≠ "All Subcategories" ∧ s ∉ avail))
  if resetSelection || selSubs.isEmpty || decide ("All Categories" ∈ selCats) then
    ["All Subcategories"]
  else selSubs

/-- Regex metacharacters of the engine behind `str.contains`; theorems
that read the search term as a literal substring exclude these. -/
def REGEX_METACHARS : List Char :=
  ['.', '\\', '*', '+', '?', '|', '(', ')', '[', ']', '^', '$',
   Char.ofNat 123, Char.ofNat 125]

/-- A structurally valid inbound message whose `ranges` filter field is
a wrong-typed value (a bare string instead of a dict of ranges). -/
def malformedFiltersMsg : Json :=
  .obj [("search", .str ""),
        ("categories", .arr [.str "All Categories"]),
        ("subcategories", .arr [.str "All Subcategories"]),
        ("countries", .arr [.str "All Countries"]),
        ("states", .arr [.str "All States"]),
        ("date", .str "All Time"),
        ("ranges", .str "garbage")]

/-- Inbound widget message carrying `malformedFiltersMsg`. -/
def malformedMsg : Json :=
  .obj [("page", .num 2), ("sort_order", .str "newest"), ("filters", malformedFiltersMsg)]

/-- An inbound message that differs from the default component state
only in its page number. -/
def pageTwoMsg : Json :=
  .obj [("page", .num 2),
        ("filters", DEFAULT_FILTERS defaultBounds),
        ("sort_order", .str "popularity")]

/-- A row whose `Raw Pledged` cell is null. -/
def c4row : Row := [("Raw Pledged", none), ("Popularity Score", some (.vnum 5))]

/-- One-row frame exposing a ranged column and the popularity column. -/
def c4frame : Frame := { cols := ["Raw Pledged", "Popularity Score"], rows := [c4row] }

/-- The fully-default filter specification with the hardcoded fallback
bounds as ranges (every facet at its sentinel, empty search, all-time
date). -/
def c4filters : FilterSpec :=
  { search := "", categories := ["All Categories"], subcategories := ["All Subcategories"],
    countries := ["All Countries"], states := ["All States"], date := "All Time",
    ranges := { pledged := some { lo := 0, hi := 1000 },
                goal := some { lo := 0, hi := 10000 },
                raised := some { lo := 0, hi := 500 } } }

/-- A row with in-range non-null cells in the ranged columns. -/
def c4okrow : Row := [("Raw Pledged", some (.vnum 10)), ("Popularity Score", some (.vnum 5))]

/-- One-row frame whose row passes the default range filters. -/
def c4okframe : Frame := { cols := ["Raw Pledged", "Popularity Score"], rows := [c4okrow] }

/-- A row whose only search column holds the text `abc`. -/
def c6row : Row := [("Project Name", some (.vstr "abc"))]

/-- A row whose project name contains the word `Robot`. -/
def c6robotRow : Row := [("Project Name", some (.vstr "Mr Robot"))]

/-- A small category-subcategory map: `C1` owns `X`, `C2` owns `Y`. -/
def c7map : List (String × List String) :=
  [("All Categories", ["All Subcategories", "X", "Y"]), ("C1", ["X"]), ("C2", ["Y"])]

/-- A row dated 50 days before the epoch used in the clock
counterexample. -/
def c9row : Row := [("Raw Date", some (.vdt (-50))), ("Popularity Score", some (.vnum 1))]

/-- One-row frame with a date column. -/
def c9frame : Frame := { cols := ["Raw Date", "Popularity Score"], rows := [c9row] }

/-- Default facets with the `Last Month` date filter and no range keys. -/
def c9filters : FilterSpec :=
  { search := "", categories := ["All Categories"], subcategories := ["All Subcategories"],
    countries := ["All Countries"], states := ["All States"], date := "Last Month",
    ranges := { pledged := none, goal := none, raised := none } }

/-- Helper: `paginate` in closed form — the committed page is the clamp
of the requested page and the fetched page is the guarded slice. -/
theorem paginate_eq {α : Type} (rows : List α) (ps : Nat) (req : Int) :
    paginate rows ps req =
      (clampCurrentPage req (totalPagesOf rows.length ps),
       if 0 < rows.length ∧
           (clampCurrentPage req (totalPagesOf rows.length ps) - 1) * (ps : Int) <
             (rows.length : Int) ∧
           0 < ps then
         (rows.drop ((clampCurrentPage req (totalPagesOf rows.length ps) - 1) *
             (ps : Int)).toNat).take ps
       else []) := by
  unfold paginate
  split
  · next h => rw [if_pos h]
  · next h => rw [if_neg h]

/-- Helper: the clamp never goes below 1. -/
theorem clampCurrentPage_ge_one (req : Int) (tp : Nat) : 1 ≤ clampCurrentPage req tp :=
  le_max_left 1 _

/-- Helper: the clamp never exceeds `max 1 totalPages`. -/
theorem clampCurrentPage_le_max (req : Int) (tp : Nat) :
    clampCurrentPage req tp ≤ max 1 (tp : Int) := by
  unfold clampCurrentPage
  split <;> omega

/-- C1: echo suppression.  If the inbound widget message and the last
state sent to the component are both dicts with byte-identical canonical
serializations (stable key ordering), the reconciler leaves the
committed session state unchanged and does not adopt the message, so no
recomputation is driven by it. -/
theorem echo_rejected_keeps_state (r sentLast : Json) (sess : SessionState)
    (hr : isObj r = true) (hs : isObj sentLast = true)
    (h : dumpsCanon r = dumpsCanon sentLast) :
    reconcile (some r) sentLast sess = (sess, false) := by
  simp [reconcile, component_sent_new_state, hr, hs, h]

/-- Witness for C1 at the default component state. -/
theorem echo_rejected_keeps_state_witness :
    isObj (DEFAULT_COMPONENT_STATE defaultBounds) = true ∧
    dumpsCanon (DEFAULT_COMPONENT_STATE defaultBounds) =
      dumpsCanon (DEFAULT_COMPONENT_STATE defaultBounds) ∧
    reconcile (some (DEFAULT_COMPONENT_STATE defaultBounds))
        (DEFAULT_COMPONENT_STATE defaultBounds) (initialSession defaultBounds) =
      (initialSession defaultBounds, false) :=
  ⟨rfl, rfl, echo_rejected_keeps_state _ _ _ rfl rfl rfl⟩

/-- C2: page clamping.  For every row count, positive page size and
requested page (zero, negative or huge), the committed page lies in
`[1, max 1 (ceil (totalRows / pageSize))]`, and the slice at offset
`(clampedPage - 1) * pageSize` is taken exactly when the offset is
below the row count; otherwise the page is empty. -/
theorem page_clamp_bounds {α : Type} (rows : List α) (pageSize : Nat) (requested : Int)
    (hps : 0 < pageSize) :
    1 ≤ (paginate rows pageSize requested).1 ∧
    (paginate rows pageSize requested).1 ≤
      max 1 (((rows.length + pageSize - 1) / pageSize : Nat) : Int) ∧
    (((paginate rows pageSize requested).1 - 1) * (pageSize : Int) < (rows.length : Int) →
      (paginate rows pageSize requested).2 =
        (rows.drop ((((paginate rows pageSize requested).1 - 1) * (pageSize : Int)).toNat)).take
          pageSize) ∧
    ((rows.length : Int) ≤ ((paginate rows pageSize requested).1 - 1) * (pageSize : Int) →
      (paginate rows pageSize requested).2 = []) := by
  have htp : totalPagesOf rows.length pageSize = (rows.length + pageSize - 1) / pageSize := by
    unfold totalPagesOf
    rw [if_pos hps]
  rw [paginate_eq]
  dsimp only
  have h1 : 1 ≤ clampCurrentPage requested (totalPagesOf rows.length pageSize) :=
    clampCurrentPage_ge_one _ _
  refine ⟨h1, ?_, ?_, ?_⟩
  · rw [← htp]
    exact clampCurrentPage_le_max requested (totalPagesOf rows.length pageSize)
  · intro hoff
    have hnn : 0 ≤ (clampCurrentPage requested (totalPagesOf rows.length pageSize) - 1) *
        (pageSize : Int) := by
      have hz : (0 : Int) ≤ (pageSize : Int) := by omega
      exact mul_nonneg (by omega) hz
    rw [if_pos ⟨by omega, hoff, hps⟩]
  · intro hoff
    rw [if_neg]
    intro hcond
    omega

/-- Witness for C2: three rows, page size two, requested page five. -/
theorem page_clamp_bounds_witness :
    0 < 2 ∧
    (1 ≤ (paginate ([0, 1, 2] : List Nat) 2 5).1 ∧
     (paginate ([0, 1, 2] : List Nat) 2 5).1 ≤
       max 1 (((([0, 1, 2] : List Nat).length + 2 - 1) / 2 : Nat) : Int) ∧
     (((paginate ([0, 1, 2] : List Nat) 2 5).1 - 1) * (2 : Int) <
         ((([0, 1, 2] : List Nat).length : Int)) →
       (paginate ([0, 1, 2] : List Nat) 2 5).2 =
         (([0, 1, 2] : List Nat).drop ((((paginate ([0, 1, 2] : List Nat) 2 5).1 - 1) *
             (2 : Int)).toNat)).take 2) ∧
     ((([0, 1, 2] : List Nat).length : Int) ≤
         ((paginate ([0, 1, 2] : List Nat) 2 5).1 - 1) * (2 : Int) →
       (paginate ([0, 1, 2] : List Nat) 2 5).2 = [])) :=
  ⟨by decide, page_clamp_bounds ([0, 1, 2] : List Nat) 2 5 (by decide)⟩

set_option maxRecDepth 100000 in
/-- Counterexample to C3: `malformedMsg` is structurally valid but its
`ranges` field is a wrong-typed value, and adoption commits that value
verbatim instead of falling back to the field's default — there is no
per-field validation. -/
theorem adoption_skips_per_field_validation_cex :
    reconcile (some malformedMsg) (initial_state_sent_to_component defaultBounds)
        (initialSession defaultBounds) =
      ({ filters := malformedFiltersMsg, sort_order := .str "newest",
         current_page := .num 2 }, true) ∧
    objLookup malformedFiltersMsg "ranges" = some (Json.str "garbage") ∧
    Json.str "garbage" ≠ defaultRangesJson defaultBounds := by
  have hnew : component_sent_new_state (some malformedMsg)
      (initial_state_sent_to_component defaultBounds) = true := by
    simp only [component_sent_new_state, initial_state_sent_to_component,
      DEFAULT_COMPONENT_STATE, isObj, malformedMsg, malformedFiltersMsg, DEFAULT_FILTERS,
      defaultRangesJson, defaultBounds, dumpsCanon, canon, canonList, canonKVs, sortKeys,
      insortKey, strLe, charsLe, dumps, dumpsList, dumpsKVs]
    decide
  refine ⟨?_, rfl, fun h => Json.noConfusion h⟩
  have hstep : reconcile (some malformedMsg) (initial_state_sent_to_component defaultBounds)
      (initialSession defaultBounds) =
      updateSessionState malformedMsg (initialSession defaultBounds) := by
    simp [reconcile, hnew]
  rw [hstep]
  rfl

/-- C3 amended: adoption validates only the structure of the message
(presence of `page`, `sort_order` and a `filters` dict with all default
keys); on success every field is committed verbatim from the message,
with no per-field validation against defaults. -/
theorem structural_adoption_is_verbatim (r sentLast : Json) (sess : SessionState)
    (hnew : component_sent_new_state (some r) sentLast = true)
    (hok : structurallyValid r = true) :
    reconcile (some r) sentLast sess =
      ({ filters := (objLookup r "filters").getD .null,
         sort_order := (objLookup r "sort_order").getD .null,
         current_page := (objLookup r "page").getD .null }, true) := by
  simp [reconcile, hnew, updateSessionState, hok]

/-- Witness for C3's amended theorem: the malformed message is adopted
verbatim (the last-sent state being a non-dict makes it count as new). -/
theorem structural_adoption_is_verbatim_witness :
    reconcile (some malformedMsg) Json.null (initialSession defaultBounds) =
      ({ filters := (objLookup malformedMsg "filters").getD .null,
         sort_order := (objLookup malformedMsg "sort_order").getD .null,
         current_page := (objLookup malformedMsg "page").getD .null }, true) :=
  structural_adoption_is_verbatim malformedMsg Json.null (initialSession defaultBounds)
    rfl (by decide)

/-- Counterexample to C5: on the first cycle no payload has been pushed
yet, but `state_sent_to_component` is initialized to the default
component state, so an inbound message equal to the defaults is
classified as an echo (state kept, not adopted) instead of being treated
as non-echo. -/
theorem first_cycle_default_message_rejected_cex :
    reconcile (some (DEFAULT_COMPONENT_STATE defaultBounds))
        (initial_state_sent_to_component defaultBounds) (initialSession defaultBounds) =
      (initialSession defaultBounds, false) := by
  simp [reconcile, component_sent_new_state, initial_state_sent_to_component,
    DEFAULT_COMPONENT_STATE, isObj]

/-- C5 amended: on the first cycle the comparison baseline is the
initialized default component state, so an inbound dict message is
treated as new exactly when its canonical serialization differs from
the default's — not unconditionally. -/
theorem first_cycle_nonecho_iff_differs_from_default (b : Bounds) (r : Json)
    (hr : isObj r = true) :
    component_sent_new_state (some r) (initial_state_sent_to_component b) = true ↔
      dumpsCanon r ≠ dumpsCanon (DEFAULT_COMPONENT_STATE b) := by
  have hs : isObj (initial_state_sent_to_component b) = true := rfl
  rw [show initial_state_sent_to_component b = DEFAULT_COMPONENT_STATE b from rfl] at hs ⊢
  simp [component_sent_new_state, hr, hs]

set_option maxRecDepth 100000 in
/-- Witness for C5's amended theorem: a page-two message differs from
the default state and is treated as new on the first cycle. -/
theorem first_cycle_nonecho_witness :
    component_sent_new_state (some pageTwoMsg)
      (initial_state_sent_to_component defaultBounds) = true :=
  (first_cycle_nonecho_iff_differs_from_default defaultBounds pageTwoMsg rfl).mpr (by
    simp only [dumpsCanon, pageTwoMsg, DEFAULT_COMPONENT_STATE, DEFAULT_FILTERS,
      defaultRangesJson, defaultBounds, canon, canonList, canonKVs, sortKeys, insortKey,
      strLe, charsLe, dumps, dumpsList, dumpsKVs]
    decide)

/-- Helper: a range filter is the identity when every row passes it. -/
theorem rangeStep_id (colName : String) (org : Option NumericRange)
    (cols : List String) (rows : List Row)
    (h : ∀ r ∈ rows, passOneRange colName org cols r = true) :
    rangeStep colName org cols rows = rows := by
  cases org with
  | none => rfl
  | some rg =>
    unfold rangeStep
    dsimp only
    by_cases hc : colName ∈ cols
    · rw [if_pos hc, List.filter_eq_self]
      intro r hr
      have hp := h r hr
      simp only [passOneRange] at hp
      rwa [if_pos hc] at hp
    · rw [if_neg hc]

/-- Counterexample to C4: with every facet at its sentinel, empty
search, all-time date and the default bounds as ranges, the plan is not
equivalent to the unfiltered source sorted by popularity — the range
filters are still applied and drop the row whose `Raw Pledged` is
null. -/
theorem default_spec_plan_drops_nulls_cex :
    apply_filters_and_sort 0 c4frame c4filters "popularity" ≠
      specUnfilteredByPopularity c4frame ∧
    (apply_filters_and_sort 0 c4frame c4filters "popularity").rows = [] ∧
    (specUnfilteredByPopularity c4frame).rows = [c4row] :=
  ⟨by decide, by decide, by decide⟩

/-- C4 amended: the fully-default plan equals the unfiltered source
sorted by popularity descending (nulls last) provided every row passes
the always-applied numeric range filters, i.e. has a non-null in-range
value in each ranged column present in the schema; rows failing that
(null or out-of-range cells) are dropped by the default range
filters. -/
theorem default_spec_plan_equiv_modulo_ranges (now : Int) (f : Frame) (rf : RangeFilters)
    (hpop : "Popularity Score" ∈ f.cols)
    (hr : ∀ r ∈ f.rows, rangesPass rf f.cols r = true) :
    apply_filters_and_sort now f
      { search := "", categories := ["All Categories"], subcategories := ["All Subcategories"],
        countries := ["All Countries"], states := ["All States"], date := "All Time",
        ranges := rf }
      "popularity" = specUnfilteredByPopularity f := by
  have hpl : ∀ r ∈ f.rows, passOneRange "Raw Pledged" rf.pledged f.cols r = true := by
    intro r hrr
    have hx := hr r hrr
    unfold rangesPass at hx
    simp only [Bool.and_eq_true] at hx
    exact hx.1.1
  have hgl : ∀ r ∈ f.rows, passOneRange "Raw Goal" rf.goal f.cols r = true := by
    intro r hrr
    have hx := hr r hrr
    unfold rangesPass at hx
    simp only [Bool.and_eq_true] at hx
    exact hx.1.2
  have hrl : ∀ r ∈ f.rows, passOneRange "Raw Raised" rf.raised f.cols r = true := by
    intro r hrr
    have hx := hr r hrr
    unfold rangesPass at hx
    simp only [Bool.and_eq_true] at hx
    exact hx.2
  unfold apply_filters_and_sort specUnfilteredByPopularity
  dsimp only
  rw [show searchStep "" f.cols f.rows = f.rows from by unfold searchStep; rw [if_pos rfl]]
  rw [show ∀ rows, isInStep "Category" "All Categories" ["All Categories"] f.cols rows = rows
    from fun rows => by unfold isInStep; rw [if_neg (by simp)]]
  rw [show ∀ rows, isInStep "Subcategory" "All Subcategories" ["All Subcategories"] f.cols
      rows = rows from fun rows => by unfold isInStep; rw [if_neg (by simp)]]
  rw [show ∀ rows, isInStep "Country" "All Countries" ["All Countries"] f.cols rows = rows
    from fun rows => by unfold isInStep; rw [if_neg (by simp)]]
  rw [show ∀ rows, stateStep ["All States"] f.cols rows = rows from
    fun rows => by unfold stateStep; rw [if_neg (by simp)]]
  unfold rangesStep
  rw [rangeStep_id _ _ _ _ hpl, rangeStep_id _ _ _ _ hgl, rangeStep_id _ _ _ _ hrl]
  rw [show ∀ rows, dateStep now "All Time" f.cols rows = rows from
    fun rows => by unfold dateStep; rw [if_neg (by simp)]]
  unfold sortStep
  rw [show sortSpecOf "popularity" = ("Popularity Score", true) from by decide]
  dsimp only
  rw [if_pos hpop]

/-- Witness for C4's amended theorem on a one-row frame whose row is
in range. -/
theorem default_spec_plan_equiv_modulo_ranges_witness :
    apply_filters_and_sort 0 c4okframe
      { search := "", categories := ["All Categories"], subcategories := ["All Subcategories"],
        countries := ["All Countries"], states := ["All States"], date := "All Time",
        ranges := c4filters.ranges }
      "popularity" = specUnfilteredByPopularity c4okframe :=
  default_spec_plan_equiv_modulo_ranges 0 c4okframe c4filters.ranges (by decide) (by decide)

/-- Helper: on a metacharacter-free pattern the parser produces only
literal tokens. -/
theorem parseRegex_lits (p : List Char) (h : ∀ c ∈ p, c ≠ '.' ∧ c ≠ '\\') :
    parseRegex p = p.map RTok.lit := by
  induction p with
  | nil => rfl
  | cons c rest ih =>
    have hc := h c (by simp)
    cases rest with
    | nil =>
      have e1 : parseRegex [c] =
          if c = '\\' then [RTok.lit '\\']
          else (if c = '.' then RTok.anyChar else RTok.lit c) :: parseRegex [] := rfl
      rw [e1, if_neg hc.2, if_neg hc.1]
      rfl
    | cons d rest2 =>
      have e1 : parseRegex (c :: d :: rest2) =
          if c = '\\' then RTok.lit d :: parseRegex rest2
          else (if c = '.' then RTok.anyChar else RTok.lit c) :: parseRegex (d :: rest2) := rfl
      rw [e1, if_neg hc.2, if_neg hc.1, List.map_cons]
      rw [ih (fun x hx => h x (by simp [hx]))]

/-- Helper: a literal-token pattern matches a prefix exactly as the
plain character list does. -/
theorem matchHere_lits (p : List Char) : ∀ s, matchHere (p.map RTok.lit) s = substrHere p s := by
  induction p with
  | nil => intro s; rfl
  | cons a as ih =>
    intro s
    cases s with
    | nil => rfl
    | cons b bs => simp only [List.map_cons, matchHere, substrHere, tokMatches, ih]

/-- Helper: unanchored search with a literal-token pattern is substring
search. -/
theorem regexFind_lits (p : List Char) : ∀ s, regexFind (p.map RTok.lit) s = substrFind p s := by
  intro s
  induction s with
  | nil => simp only [regexFind, substrFind, matchHere_lits]
  | cons c cs ih => simp only [regexFind, substrFind, matchHere_lits, ih]

/-- Helper: for search terms free of regex metacharacters the regex
containment used by the code coincides with case-insensitive substring
containment. -/
theorem strContainsCI_eq_substr (term s : String)
    (hsafe : ∀ c ∈ (lowerStr term).data, c ∉ REGEX_METACHARS) :
    strContainsCI term s = substrContainsCI term s := by
  unfold strContainsCI substrContainsCI
  rw [parseRegex_lits, regexFind_lits]
  intro c hc
  have h := hsafe c hc
  simp only [REGEX_METACHARS, List.mem_cons, not_or] at h
  exact ⟨h.1, h.2.1⟩

/-- Counterexample to C6: the search string is spliced into a regular
expression, not matched literally — searching for `.` keeps a row whose
only search column is `abc`, although no column contains `.` as a
substring. -/
theorem search_term_treated_as_regex_cex :
    searchStep "." ["Project Name"] [c6row] = [c6row] ∧
    getCell c6row "Project Name" = some (PValue.vstr "abc") ∧
    substrContainsCI "." "abc" = false :=
  ⟨by decide, by decide, by decide⟩

/-- C6 amended: for a non-empty search string free of regex
metacharacters, the text-search step keeps exactly the rows in which at
least one existing search column case-insensitively contains the string
as a literal substring, and is skipped entirely when none of the four
search columns exists.  For other strings the term is interpreted as a
regular expression. -/
theorem search_substring_for_literal_terms (term : String) (cols : List String) (rows : List Row)
    (hne : term ≠ "")
    (hsafe : ∀ c ∈ (lowerStr term).data, c ∉ REGEX_METACHARS) :
    searchStep term cols rows =
      if SEARCH_COLS.filter (fun c => decide (c ∈ cols)) = [] then rows
      else rows.filter (fun r =>
        (SEARCH_COLS.filter (fun c => decide (c ∈ cols))).any (fun c =>
          match getCell r c with
          | some v => substrContainsCI term (castUtf8 v)
          | none => false)) := by
  have hss : ∀ u, strContainsCI term u = substrContainsCI term u :=
    fun u => strContainsCI_eq_substr term u hsafe
  unfold searchStep
  rw [if_neg hne]
  simp only [hss]

/-- Witness for C6's amended theorem with the literal term `robot`. -/
theorem search_substring_for_literal_terms_witness :
    searchStep "robot" ["Project Name"] [c6robotRow] =
      (if SEARCH_COLS.filter (fun c => decide (c ∈ (["Project Name"] : List String))) = []
       then [c6robotRow]
       else [c6robotRow].filter (fun r =>
         (SEARCH_COLS.filter (fun c => decide (c ∈ (["Project Name"] : List String)))).any
           (fun c =>
             match getCell r c with
             | some v => substrContainsCI "robot" (castUtf8 v)
             | none => false))) :=
  search_substring_for_literal_terms "robot" ["Project Name"] [c6robotRow]
    (by decide) (by decide)

/-- Counterexample to C7: with categories narrowed to `C1`, the
previously selected subcategories `X` (still valid) and `Y` (now
invalid) are not pruned element-wise — the widget resets the whole
selection to the sentinel, dropping the still-valid `X` even though the
pruned selection would be non-empty. -/
theorem subcategory_partial_invalid_resets_all_cex :
    updateSubcategoryOptions c7map ["C1"] ["X", "Y"] = ["All Subcategories"] ∧
    (["X", "Y"].filter (fun s => decide (s ∈ availableSubcategories c7map ["C1"]))) = ["X"] ∧
    (["All Subcategories"] : List String) ≠ ["X"] :=
  ⟨by decide, by decide, by decide⟩

/-- C7 amended: when the selected categories do not contain
`All Categories`, the subcategory selection is kept unchanged exactly
when it is non-empty and every selected subcategory is the sentinel or
available under the new categories; otherwise (any invalid entry, or an
empty selection) the whole selection reverts to the sentinel singleton,
still-valid entries included. -/
theorem updateSubcategoryOptions_characterized (m : List (String × List String))
    (selCats selSubs : List String) (hAll : "All Categories" ∉ selCats) :
    updateSubcategoryOptions m selCats selSubs =
      if selSubs ≠ [] ∧ ∀ s ∈ selSubs, s = "All Subcategories" ∨
          s ∈ availableSubcategories m selCats
      then selSubs else ["All Subcategories"] := by
  unfold updateSubcategoryOptions
  dsimp only
  have hA : decide ("All Categories" ∈ selCats) = false := decide_eq_false hAll
  rw [hA, Bool.or_false]
  by_cases h1 : selSubs = []
  · subst h1
    simp
  · have hie : selSubs.isEmpty = false := by
      cases selSubs with
      | nil => exact absurd rfl h1
      | cons a l => rfl
    rw [hie, Bool.or_false]
    by_cases h2 : ∀ s ∈ selSubs, s = "All Subcategories" ∨ s ∈ availableSubcategories m selCats
    · have hany : (selSubs.any fun s =>
          decide (s ≠ "All Subcategories" ∧ s ∉ availableSubcategories m selCats)) = false := by
        simp only [List.any_eq_false, decide_eq_true_eq, not_and, not_not]
        intro s hs hne
        rcases h2 s hs with h | h
        · exact absurd h hne
        · exact h
      rw [hany, if_neg Bool.false_ne_true, if_pos ⟨h1, h2⟩]
    · have hany : (selSubs.any fun s =>
          decide (s ≠ "All Subcategories" ∧ s ∉ availableSubcategories m selCats)) = true := by
        push_neg at h2
        obtain ⟨s, hs, hne, hnm⟩ := h2
        simp only [List.any_eq_true, decide_eq_true_eq]
        exact ⟨s, hs, hne, hnm⟩
      rw [hany, if_pos rfl, if_neg (fun hcontra => h2 hcontra.2)]

/-- Witness for C7's amended theorem: an all-valid selection under
`C1` is kept unchanged. -/
theorem updateSubcategoryOptions_characterized_witness :
    updateSubcategoryOptions c7map ["C1"] ["X"] =
      (if (["X"] : List String) ≠ [] ∧ ∀ s ∈ (["X"] : List String),
          s = "All Subcategories" ∨ s ∈ availableSubcategories c7map ["C1"]
       then ["X"] else ["All Subcategories"]) :=
  updateSubcategoryOptions_characterized c7map ["C1"] ["X"] (by decide)

/-- C8: the date filter.  For every recognized non-`All Time` label
with its fixed day delta (Last Month = 30, Last 6 Months = 182,
Last Year = 365, Last 5 Years = 1825, Last 10 Years = 3650), when the
date column exists the plan keeps exactly the rows whose `Raw Date`,
cast non-strictly to a timestamp, is at least `now` minus the delta;
rows whose cast is null (null or unparseable dates) are excluded
rather than raising an error. -/
theorem date_filter_cutoff (now : Int) (date : String) (d : Int)
    (cols : List String) (rows : List Row)
    (hd : dateDeltaDays date = some d) (hc : "Raw Date" ∈ cols) :
    dateStep now date cols rows =
      rows.filter (fun r =>
        match getCell r "Raw Date" with
        | some v =>
          match castDatetime v with
          | some t => decide (now - d ≤ t)
          | none => false
        | none => false) ∧
    dateDeltaDays "Last Month" = some 30 ∧
    dateDeltaDays "Last 6 Months" = some 182 ∧
    dateDeltaDays "Last Year" = some 365 ∧
    dateDeltaDays "Last 5 Years" = some 1825 ∧
    dateDeltaDays "Last 10 Years" = some 3650 := by
  refine ⟨?_, rfl, rfl, rfl, by decide, by decide⟩
  have hne : date ≠ "All Time" := by
    intro he
    rw [he] at hd
    have hnone : dateDeltaDays "All Time" = none := rfl
    rw [hnone] at hd
    exact Option.noConfusion hd
  unfold dateStep
  rw [if_pos ⟨hne, hc⟩, hd]

/-- Witness for C8 with the `Last Month` delta. -/
theorem date_filter_cutoff_witness :
    dateStep 1000 "Last Month" ["Raw Date"] [c9row] =
      [c9row].filter (fun r =>
        match getCell r "Raw Date" with
        | some v =>
          match castDatetime v with
          | some t => decide ((1000 : Int) - 30 ≤ t)
          | none => false
        | none => false) ∧
    dateDeltaDays "Last Month" = some 30 ∧
    dateDeltaDays "Last 6 Months" = some 182 ∧
    dateDeltaDays "Last Year" = some 365 ∧
    dateDeltaDays "Last 5 Years" = some 1825 ∧
    dateDeltaDays "Last 10 Years" = some 3650 :=
  date_filter_cutoff 1000 "Last Month" 30 ["Raw Date"] [c9row] rfl (by decide)

/-- Counterexample to C9: the date filter reads the wall clock, so two
runs of `apply_filters_and_sort` on the same snapshot with the same
`FilterSpec` and `SortSpec` but different clock readings produce
different row sequences. -/
theorem same_inputs_different_clock_cex :
    apply_filters_and_sort 0 c9frame c9filters "popularity" ≠
      apply_filters_and_sort (-100) c9frame c9filters "popularity" ∧
    (apply_filters_and_sort 0 c9frame c9filters "popularity").rows = [] ∧
    (apply_filters_and_sort (-100) c9frame c9filters "popularity").rows = [c9row] :=
  ⟨by decide, by decide, by decide⟩

/-- C9 amended: the computation is a pure function of the snapshot, the
specs and the clock — two runs agreeing on the clock reading are
byte-identical, and with the `All Time` date filter the output does not
depend on the clock at all. -/
theorem apply_deterministic_given_clock (f : Frame) (fs : FilterSpec) (so : String)
    (h : fs.date = "All Time") (n1 n2 : Int) :
    apply_filters_and_sort n1 f fs so = apply_filters_and_sort n2 f fs so := by
  have hd : ∀ n rows, dateStep n fs.date f.cols rows = rows := by
    intro n rows
    unfold dateStep
    rw [h]
    exact if_neg (fun hcon => hcon.1 rfl)
  simp only [apply_filters_and_sort, hd]

/-- Witness for C9's amended theorem at two distinct clock readings. -/
theorem apply_deterministic_given_clock_witness :
    apply_filters_and_sort 0 c4frame c4filters "popularity" =
      apply_filters_and_sort 100 c4frame c4filters "popularity" :=
  apply_deterministic_given_clock c4frame c4filters "popularity" rfl 0 100

/-- C10: every sort-order string other than the five recognized labels
resolves to `Popularity Score` descending — when that column exists the
rows are sorted by it with nulls last, no error is raised, and the
whole computation is indistinguishable from `sort_order =
"popularity"`. -/
theorem unknown_sort_behaves_as_popularity (so : String)
    (h : so ∉ (["newest", "oldest", "mostfunded", "mostbacked", "enddate"] : List String)) :
    sortSpecOf so = ("Popularity Score", true) ∧
    (∀ cols rows, "Popularity Score" ∈ cols →
      sortStep so cols rows = sortRows (rowBefore "Popularity Score" true) rows) ∧
    (∀ now f fs, apply_filters_and_sort now f fs so =
      apply_filters_and_sort now f fs "popularity") := by
  simp only [List.mem_cons, List.not_mem_nil, or_false, not_or] at h
  obtain ⟨h1, h2, h3, h4, h5⟩ := h
  have hspec : sortSpecOf so = ("Popularity Score", true) := by
    unfold sortSpecOf
    rw [if_neg h1, if_neg h2, if_neg h3, if_neg h4, if_neg h5]
  refine ⟨hspec, ?_, ?_⟩
  · intro cols rows hc
    unfold sortStep
    rw [hspec]
    dsimp only
    rw [if_pos hc]
  · intro now f fs
    have hs : ∀ cols rows, sortStep so cols rows = sortStep "popularity" cols rows := by
      intro cols rows
      unfold sortStep
      rw [hspec, show sortSpecOf "popularity" = ("Popularity Score", true) from by decide]
    simp only [apply_filters_and_sort, hs]

/-- Witness for C10 at the unrecognized label `garbage`. -/
theorem unknown_sort_behaves_as_popularity_witness :
    sortSpecOf "garbage" = ("Popularity Score", true) ∧
    (∀ cols rows, "Popularity Score" ∈ cols →
      sortStep "garbage" cols rows = sortRows (rowBefore "Popularity Score" true) rows) ∧
    (∀ now f fs, apply_filters_and_sort now f fs "garbage" =
      apply_filters_and_sort now f fs "popularity") :=
  unknown_sort_behaves_as_popularity "garbage" (by decide)
